import Mathlib

/-!
Verification of the node-fleet cluster autoscaler against its
natural-language specification.

The Lean definitions below are a shallow embedding of the Python sources:

* `NodeFleet.ScalingDecision` — src/lambda/scaling_decision.py
* `NodeFleet.StateManager`    — src/lambda/state_manager.py
* `NodeFleet.EC2`             — src/lambda/ec2_manager.py and
                                src/lambda/spot_instance_helper.py

Python floats are modelled as rationals (every IEEE double is a rational
and all the code does with metric values is compare and copy them), Python
ints as `Int`, fallible paths as `Except`.  Interaction with external
services (DynamoDB, the EC2 API, the Kubernetes API) is modelled by
explicit world states threaded through the functions; asynchronous
outcomes that the code merely polls for (pods finishing eviction, nodes
becoming ready) are oracle parameters.
-/

namespace NodeFleet

/-! ## Metric snapshots (src/lambda/scaling_decision.py, state_manager.py)

A metric reading is a dict with keys `cpu_usage`, `memory_usage`,
`pending_pods`; every access in the source goes through
`dict.get(key, 0)`, so a reading is fully described by the three
defaulted values. -/

structure Snapshot where
  cpu_usage : ℚ
  memory_usage : ℚ
  pending_pods : ℚ
  deriving Repr, DecidableEq

inductive MetricKey where
  | cpu_usage
  | memory_usage
  | pending_pods
  deriving Repr, DecidableEq

/-- Embeds `float(item.get(key, 0))` for the three keys the engine reads. -/
def Snapshot.get (s : Snapshot) : MetricKey → ℚ
  | .cpu_usage => s.cpu_usage
  | .memory_usage => s.memory_usage
  | .pending_pods => s.pending_pods

/-- Python list slicing `l[k:]` for an arbitrary integer index `k`:
a negative `k` keeps the last `-k` elements (all of them when
`-k` exceeds the length), a non-negative `k` drops the first `k`. -/
def pySliceFrom (l : List α) (k : ℤ) : List α :=
  if k < 0 then l.drop (l.length - min l.length (-k).toNat)
  else l.drop k.toNat

/-- Python list slicing `l[:k]` for an arbitrary integer bound `k`:
a negative `k` drops the last `-k` elements, a non-negative `k` keeps
the first `k`. -/
def pySliceTo (l : List α) (k : ℤ) : List α :=
  if k < 0 then l.take (l.length - min l.length (-k).toNat)
  else l.take k.toNat

/-- The last `n` elements of a list (the whole list when `n` exceeds the
length); used to phrase the spec's "the most recent n history entries". -/
def lastN (l : List α) (n : ℕ) : List α :=
  l.drop (l.length - n)

namespace ScalingDecision

/-- Constructor arguments of `ScalingDecision`
(src/lambda/scaling_decision.py lines 30-34). -/
structure Config where
  min_nodes : ℤ
  max_nodes : ℤ
  current_nodes : ℤ
  last_scale_time : ℤ
  deriving Repr, DecidableEq

inductive Action where
  | none_
  | scale_up
  | scale_down
  deriving Repr, DecidableEq

/-- The dict `{'action': ..., 'nodes': ..., 'reason': ...}` returned by
`ScalingDecision.evaluate`. -/
structure Decision where
  action : Action
  nodes : ℤ
  reason : String
  deriving Repr, DecidableEq

/-- A Python runtime error relevant to this module: referencing a local
variable on a path where it was never assigned. -/
inductive PyErr where
  | unboundLocal
  deriving Repr, DecidableEq

/-- The optional `custom_metrics` argument of `evaluate`:
`custom_metrics.get('scale_needed')` and `custom_metrics.get('reasons', [])`. -/
structure Custom where
  scale_needed : Bool
  reasons : List String
  deriving Repr, DecidableEq

/-- Embeds `ScalingDecision._is_sustained_above`
(src/lambda/scaling_decision.py lines 138-151):

    if current_val <= threshold: return False
    if not history or len(history) < window - 1: return False
    recent_history = history[-(window-1):]
    for item in recent_history:
        if float(item.get(key, 0)) <= threshold: return False
    return True
-/
def is_sustained_above (current_val : ℚ) (history : List Snapshot)
    (key : MetricKey) (threshold : ℚ) (window : ℤ) : Bool :=
  if current_val ≤ threshold then false
  else if history.isEmpty || (history.length : ℤ) < window - 1 then false
  else (pySliceFrom history (-(window - 1))).all
    (fun item => !(item.get key ≤ threshold))

/-- Embeds `ScalingDecision._is_sustained_below_all`
(src/lambda/scaling_decision.py lines 153-169); `thresholds` is the
items of the thresholds dict, in iteration order. -/
def is_sustained_below_all (metrics : Snapshot) (history : List Snapshot)
    (thresholds : List (MetricKey × ℚ)) (window : ℤ) : Bool :=
  if thresholds.any (fun kv => metrics.get kv.1 ≥ kv.2) then false
  else if history.isEmpty || (history.length : ℤ) < window - 1 then false
  else (pySliceFrom history (-(window - 1))).all
    (fun item => !(thresholds.any (fun kv => item.get kv.1 ≥ kv.2)))

/-- The thresholds dict passed to `_is_sustained_below_all` by `evaluate`
(lines 114-118): cpu < 30, memory < 50, pending < 1. -/
def scaleDownThresholds : List (MetricKey × ℚ) :=
  [(.cpu_usage, 30), (.memory_usage, 50), (.pending_pods, 1)]

/-- The list `scale_up_reasons` as built by `evaluate` lines 73-89:
sustained-above checks on cpu (70, window 3), memory (75, window 3) and
pending pods (0, window 3), then custom reasons when
`custom_metrics.get('scale_needed')` is truthy. -/
def scaleUpReasons (metrics : Snapshot) (history : List Snapshot)
    (custom : Option Custom) : List String :=
  (if is_sustained_above metrics.cpu_usage history .cpu_usage 70 3 then
    ["CPU sustained > 70.0%"] else []) ++
  (if is_sustained_above metrics.memory_usage history .memory_usage 75 3 then
    ["Memory sustained > 75.0%"] else []) ++
  (if is_sustained_above metrics.pending_pods history .pending_pods 0 3 then
    ["Pending pods sustained > 0"] else []) ++
  (match custom with
   | some c => if c.scale_needed then c.reasons.map (fun r => "Custom: " ++ r) else []
   | none => [])

/-- Embeds `ScalingDecision.evaluate` (src/lambda/scaling_decision.py lines
36-136).  `now` is `int(time.time())`.

Faithfulness note on the at-max branch (lines 64-70): the local
`scale_up_reasons` is assigned only in the `else:` arm of
`if self.current_nodes >= self.max_nodes:`.  The sustained checks and
every later statement sit at method level, so when
`current_nodes >= max_nodes` (and `current_nodes >= min_nodes`) the first
reference to `scale_up_reasons` — `scale_up_reasons.append` at line 78,
81 or 84, `scale_up_reasons.extend` at line 89, or the truthiness test
`if scale_up_reasons:` at line 91 — raises `UnboundLocalError` on every
input, which the embedding records as `.error .unboundLocal`. -/
def evaluate (cfg : Config) (now : ℤ) (metrics : Snapshot)
    (history : List Snapshot) (custom : Option Custom) :
    Except PyErr Decision :=
  let cpu := metrics.cpu_usage
  let pending_pods := metrics.pending_pods
  let time_since_last_scale := now - cfg.last_scale_time
  -- 0. Enforce minimum node count
  if cfg.current_nodes < cfg.min_nodes then
    .ok ⟨.scale_up, cfg.min_nodes - cfg.current_nodes,
      "Enforcing minimum node count (" ++ toString cfg.min_nodes ++ ")"⟩
  -- 0.5 At/above max: `scale_up_reasons` is never bound, first use raises
  else if cfg.current_nodes ≥ cfg.max_nodes then
    .error .unboundLocal
  else
    let scale_up_reasons := scaleUpReasons metrics history custom
    if scale_up_reasons ≠ [] then
      if time_since_last_scale < 300 then
        .ok ⟨.none_, 0, "In cooldown"⟩
      else if cfg.current_nodes ≥ cfg.max_nodes then
        -- dead in this branch (current_nodes < max_nodes), kept from line 96
        .ok ⟨.none_, 0, "At max capacity (" ++ toString cfg.max_nodes ++ ")"⟩
      else
        let nodes_to_add : ℤ := if cpu > 85 ∨ pending_pods > 5 then 2 else 1
        let nodes_to_add := min nodes_to_add (cfg.max_nodes - cfg.current_nodes)
        .ok ⟨.scale_up, nodes_to_add, String.intercalate ", " scale_up_reasons⟩
    else if is_sustained_below_all metrics history scaleDownThresholds 10 then
      if time_since_last_scale < 600 then
        .ok ⟨.none_, 0, "In cooldown"⟩
      else if cfg.current_nodes ≤ cfg.min_nodes then
        .ok ⟨.none_, 0, "At min capacity"⟩
      else
        .ok ⟨.scale_down, 1, "Sustained low utilization (10m)"⟩
    else
      .ok ⟨.none_, 0, "Stable"⟩

/-- Key slicing fact: for `1 ≤ k`, the Python slice `l[-k:]` is the last
`k` elements of `l` (all of `l` when `k` exceeds the length). -/
theorem pySliceFrom_neg (l : List α) (k : ℤ) (hk : 1 ≤ k) :
    pySliceFrom l (-k) = lastN l k.toNat := by
  have hneg : -k < 0 := by omega
  simp only [pySliceFrom, lastN, if_pos hneg, neg_neg]
  rcases le_or_lt k.toNat l.length with h | h
  · rw [min_eq_right h]
  · rw [min_eq_left h.le]
    congr 1
    omega

/-- A snapshot passes the scale-down threshold dict exactly when
cpu < 30, memory < 50 and pending < 1. -/
theorem belowThresholds_iff (s : Snapshot) :
    (scaleDownThresholds.any (fun kv => s.get kv.1 ≥ kv.2)) = false ↔
      (s.cpu_usage < 30 ∧ s.memory_usage < 50 ∧ s.pending_pods < 1) := by
  simp [scaleDownThresholds, Snapshot.get, not_le]

/-- Characterisation of `_is_sustained_above` for windows of size at least
two (the engine only calls it with `window=3`): true exactly when the
current value exceeds the threshold, the history holds at least
`window - 1` entries, and each of the most recent `window - 1` entries
exceeds the threshold. -/
theorem is_sustained_above_iff (w : ℤ) (hw : 2 ≤ w)
    (cur th : ℚ) (key : MetricKey) (history : List Snapshot) :
    is_sustained_above cur history key th w = true ↔
      (th < cur ∧ w - 1 ≤ (history.length : ℤ) ∧
        ∀ s ∈ lastN history (w - 1).toNat, th < s.get key) := by
  rw [is_sustained_above]
  split_ifs with h1 h2
  · simp only [Bool.false_eq_true, false_iff]
    intro hc
    exact absurd hc.1 (not_lt.mpr h1)
  · simp only [Bool.false_eq_true, false_iff]
    rintro ⟨-, hlen, -⟩
    rcases Bool.or_eq_true_iff.mp h2 with he | hl
    · have : history.length = 0 := by
        simpa [List.isEmpty_iff_length_eq_zero] using he
      omega
    · have : (history.length : ℤ) < w - 1 := by simpa using hl
      omega
  · rw [pySliceFrom_neg _ _ (by omega)]
    simp only [List.all_eq_true, Bool.not_eq_true', decide_eq_false_iff_not,
      not_le]
    constructor
    · intro hall
      refine ⟨not_le.mp h1, ?_, hall⟩
      rw [Bool.or_eq_true_iff, not_or] at h2
      have : ¬ ((history.length : ℤ) < w - 1) := by
        intro hlt
        exact h2.2 (by simpa using hlt)
      omega
    · exact fun hc => hc.2.2

/-- Characterisation of `_is_sustained_below_all` at the scale-down
thresholds and window 10: true exactly when cpu < 30, memory < 50 and
pending < 1 hold in the current reading, the history holds at least 9
entries, and the same bounds hold in each of the last 9 entries. -/
theorem is_sustained_below_all_iff
    (metrics : Snapshot) (history : List Snapshot) :
    is_sustained_below_all metrics history scaleDownThresholds 10 = true ↔
      (metrics.cpu_usage < 30 ∧ metrics.memory_usage < 50 ∧
        metrics.pending_pods < 1 ∧ 9 ≤ history.length ∧
        ∀ s ∈ lastN history 9,
          s.cpu_usage < 30 ∧ s.memory_usage < 50 ∧ s.pending_pods < 1) := by
  have hslice : pySliceFrom history (-(10 - 1)) = lastN history 9 := by
    have h := pySliceFrom_neg history 9 (by omega)
    norm_num at h ⊢
    exact h
  rw [is_sustained_below_all]
  split_ifs with h1 h2
  · simp only [Bool.false_eq_true, false_iff]
    rintro ⟨c1, c2, c3, -, -⟩
    have hfalse := (belowThresholds_iff metrics).mpr ⟨c1, c2, c3⟩
    rw [hfalse] at h1
    exact absurd h1 (by simp)
  · simp only [Bool.false_eq_true, false_iff]
    rintro ⟨-, -, -, hlen, -⟩
    rcases Bool.or_eq_true_iff.mp h2 with he | hl
    · have : history.length = 0 := by
        simpa [List.isEmpty_iff_length_eq_zero] using he
      omega
    · have : (history.length : ℤ) < 10 - 1 := by simpa using hl
      omega
  · rw [hslice]
    rw [List.all_eq_true]
    constructor
    · intro hall
      have hcur := (belowThresholds_iff metrics).mp (Bool.eq_false_iff.mpr h1)
      refine ⟨hcur.1, hcur.2.1, hcur.2.2, ?_, ?_⟩
      · rw [Bool.or_eq_true_iff, not_or] at h2
        have : ¬ ((history.length : ℤ) < 10 - 1) := by
          intro hlt
          exact h2.2 (by simpa using hlt)
        omega
      · intro s hs
        have h' := hall s hs
        rw [Bool.not_eq_true'] at h'
        exact (belowThresholds_iff s).mp h'
    · rintro ⟨-, -, -, -, hall⟩ s hs
      rw [Bool.not_eq_true']
      exact (belowThresholds_iff s).mpr (hall s hs)

/-- C5: whenever `current_nodes < min_nodes`, `evaluate` returns a
scale-up of exactly `min_nodes - current_nodes` nodes, for every metric
reading, history, custom signal and `last_scale_time` — the minimum floor
bypasses the cooldown and every metric check. -/
theorem evaluate_enforces_minimum (cfg : Config) (now : ℤ)
    (metrics : Snapshot) (history : List Snapshot) (custom : Option Custom)
    (h : cfg.current_nodes < cfg.min_nodes) :
    evaluate cfg now metrics history custom =
      .ok ⟨.scale_up, cfg.min_nodes - cfg.current_nodes,
        "Enforcing minimum node count (" ++ toString cfg.min_nodes ++ ")"⟩ := by
  simp [evaluate, h]

/-- Witness for `evaluate_enforces_minimum`: one worker with a minimum of
three, zero seconds since the last scaling action (inside any cooldown)
and idle metrics still yields an immediate two-node scale-up. -/
theorem evaluate_enforces_minimum_witness :
    (1 : ℤ) < 3 ∧
    evaluate ⟨3, 10, 1, 1000⟩ 1000 ⟨5, 5, 0⟩ [] none =
      .ok ⟨.scale_up, 2, "Enforcing minimum node count (3)"⟩ :=
  ⟨by norm_num, by
    have h := evaluate_enforces_minimum ⟨3, 10, 1, 1000⟩ 1000 ⟨5, 5, 0⟩ [] none (by norm_num)
    simpa using h⟩

/-- C1 (code bug): at maximum capacity with sustained extreme load —
the input of `test_scale_up_blocked_at_max` in
src/tests/lambda/test_scaling_decision.py — `evaluate` does not skip to
the scale-down evaluation; it raises `UnboundLocalError`, because
`scale_up_reasons` is only assigned in the below-max branch
(src/lambda/scaling_decision.py lines 64-70) yet is referenced
unconditionally (lines 77-91). -/
theorem evaluate_at_max_raises_unbound_local :
    evaluate ⟨2, 10, 10, 0⟩ 1000 ⟨85, 80, 5⟩ [⟨86, 79, 6⟩, ⟨87, 81, 4⟩]
      none = .error .unboundLocal := rfl

/-- C7 (amended: window at least 2): the sustained-above check with
window `w ≥ 2` is true iff the current reading exceeds the threshold, the
history holds at least `w - 1` entries, and each of the most recent
`w - 1` entries exceeds the threshold — so a single at-or-below reading
anywhere in the window makes it false. -/
theorem is_sustained_above_window_iff (w : ℤ) (hw : 2 ≤ w)
    (cur th : ℚ) (key : MetricKey) (history : List Snapshot) :
    is_sustained_above cur history key th w = true ↔
      (th < cur ∧ w - 1 ≤ (history.length : ℤ) ∧
        ∀ s ∈ lastN history (w - 1).toNat, th < s.get key) :=
  is_sustained_above_iff w hw cur th key history

/-- Witness for `is_sustained_above_window_iff` at the window the engine
uses (`w = 3`) on a concrete two-entry history. -/
theorem is_sustained_above_window_iff_witness :
    (2 : ℤ) ≤ 3 ∧
    (is_sustained_above 80 [⟨75, 0, 0⟩, ⟨72, 0, 0⟩] .cpu_usage 70 3 = true ↔
      ((70 : ℚ) < 80 ∧ (3 : ℤ) - 1 ≤ (([⟨75, 0, 0⟩, ⟨72, 0, 0⟩] :
          List Snapshot).length : ℤ) ∧
        ∀ s ∈ lastN ([⟨75, 0, 0⟩, ⟨72, 0, 0⟩] : List Snapshot)
          ((3 : ℤ) - 1).toNat, (70 : ℚ) < s.get .cpu_usage)) :=
  ⟨by norm_num,
    is_sustained_above_window_iff 3 (by norm_num) 80 70 .cpu_usage _⟩

/-- C7 counterexample: with window 1 the claim's reading (current above
threshold, history of length at least 0, and vacuously all of the most
recent 0 entries above threshold) predicts `true`, but the source's
`if not history` guard returns `false` on an empty history (and for
window 1 the slice `history[-0:]` is the whole history, not its last 0
entries). -/
theorem is_sustained_above_window_one_counterexample :
    is_sustained_above 5 [] .cpu_usage 1 1 = false ∧
    ((1 : ℚ) < 5 ∧ (1 : ℤ) - 1 ≤ (([] : List Snapshot).length : ℤ) ∧
      ∀ s ∈ lastN ([] : List Snapshot) ((1 : ℤ) - 1).toNat,
        (1 : ℚ) < s.get .cpu_usage) := by
  refine ⟨rfl, by norm_num, by simp, ?_⟩
  intro s hs
  simp [lastN] at hs

/-- C6 (amended: restricted to `current_nodes < max_nodes`; at or above
the maximum `evaluate` raises `UnboundLocalError` instead, see C1): when
no scale-up trigger fires and `min_nodes ≤ current_nodes < max_nodes`,
`evaluate` returns a one-node scale-down iff cpu < 30, memory < 50 and
pending < 1 hold in the current reading and in each of the last 9 history
entries (with at least 9 present), at least 600s elapsed since the last
scaling action, and `current_nodes > min_nodes`; when the sustained-low
condition holds but the cooldown or the floor blocks, it returns the
`none` action with the blocking reason. -/
theorem evaluate_scale_down_iff (cfg : Config) (now : ℤ)
    (metrics : Snapshot) (history : List Snapshot) (custom : Option Custom)
    (hmin : cfg.min_nodes ≤ cfg.current_nodes)
    (hmax : cfg.current_nodes < cfg.max_nodes)
    (htrig : scaleUpReasons metrics history custom = []) :
    (evaluate cfg now metrics history custom =
        .ok ⟨.scale_down, 1, "Sustained low utilization (10m)"⟩ ↔
      (metrics.cpu_usage < 30 ∧ metrics.memory_usage < 50 ∧
        metrics.pending_pods < 1 ∧ 9 ≤ history.length ∧
        (∀ s ∈ lastN history 9,
          s.cpu_usage < 30 ∧ s.memory_usage < 50 ∧ s.pending_pods < 1) ∧
        600 ≤ now - cfg.last_scale_time ∧
        cfg.min_nodes < cfg.current_nodes)) ∧
    (is_sustained_below_all metrics history scaleDownThresholds 10 = true →
      now - cfg.last_scale_time < 600 →
      evaluate cfg now metrics history custom =
        .ok ⟨.none_, 0, "In cooldown"⟩) ∧
    (is_sustained_below_all metrics history scaleDownThresholds 10 = true →
      600 ≤ now - cfg.last_scale_time →
      cfg.current_nodes ≤ cfg.min_nodes →
      evaluate cfg now metrics history custom =
        .ok ⟨.none_, 0, "At min capacity"⟩) := by
  have h1 : ¬ (cfg.current_nodes < cfg.min_nodes) := not_lt.mpr hmin
  have h2 : ¬ (cfg.current_nodes ≥ cfg.max_nodes) := not_le.mpr hmax
  have hev : evaluate cfg now metrics history custom =
      (if is_sustained_below_all metrics history scaleDownThresholds 10 then
        (if now - cfg.last_scale_time < 600 then
          Except.ok ⟨.none_, 0, "In cooldown"⟩
         else if cfg.current_nodes ≤ cfg.min_nodes then
          Except.ok ⟨.none_, 0, "At min capacity"⟩
         else
          Except.ok ⟨.scale_down, 1, "Sustained low utilization (10m)"⟩)
       else Except.ok ⟨.none_, 0, "Stable"⟩) := by
    simp [evaluate, h1, h2, htrig]
  rw [hev]
  refine ⟨?_, ?_, ?_⟩
  · constructor
    · intro heq
      by_cases hsus :
          is_sustained_below_all metrics history scaleDownThresholds 10
      · rw [if_pos hsus] at heq
        by_cases hcool : now - cfg.last_scale_time < 600
        · rw [if_pos hcool] at heq
          simp at heq
        · rw [if_neg hcool] at heq
          by_cases hfloor : cfg.current_nodes ≤ cfg.min_nodes
          · rw [if_pos hfloor] at heq
            simp at heq
          · obtain ⟨c1, c2, c3, hlen, hall⟩ :=
              (is_sustained_below_all_iff metrics history).mp hsus
            exact ⟨c1, c2, c3, hlen, hall, not_lt.mp hcool,
              not_le.mp hfloor⟩
      · rw [if_neg hsus] at heq
        simp at heq
    · rintro ⟨c1, c2, c3, hlen, hall, hcd, hfl⟩
      have hsus := (is_sustained_below_all_iff metrics history).mpr
        ⟨c1, c2, c3, hlen, hall⟩
      rw [if_pos hsus, if_neg (not_lt.mpr hcd), if_neg (not_le.mpr hfl)]
  · intro hsus hcool
    rw [if_pos hsus, if_pos hcool]
  · intro hsus hcool hfloor
    rw [if_pos hsus, if_neg (not_lt.mpr hcool), if_pos hfloor]

/-- Witness for `evaluate_scale_down_iff`: four workers (minimum two,
maximum ten), sustained low readings across the current snapshot and nine
history entries, cooldown long elapsed — `evaluate` removes one node. -/
theorem evaluate_scale_down_iff_witness :
    evaluate ⟨2, 10, 4, 0⟩ 10000 ⟨25, 40, 0⟩
      [⟨26, 38, 0⟩, ⟨28, 42, 0⟩, ⟨24, 39, 0⟩, ⟨27, 41, 0⟩, ⟨25, 40, 0⟩,
       ⟨26, 38, 0⟩, ⟨28, 42, 0⟩, ⟨24, 39, 0⟩, ⟨27, 41, 0⟩] none =
      .ok ⟨.scale_down, 1, "Sustained low utilization (10m)"⟩ :=
  ((evaluate_scale_down_iff ⟨2, 10, 4, 0⟩ 10000 ⟨25, 40, 0⟩
      [⟨26, 38, 0⟩, ⟨28, 42, 0⟩, ⟨24, 39, 0⟩, ⟨27, 41, 0⟩, ⟨25, 40, 0⟩,
       ⟨26, 38, 0⟩, ⟨28, 42, 0⟩, ⟨24, 39, 0⟩, ⟨27, 41, 0⟩] none
      (by norm_num) (by norm_num) (by decide)).1).mpr (by decide)

/-- C6 counterexample: at `current_nodes = max_nodes = 4 > min_nodes = 2`
with no scale-up trigger, the sustained-low condition satisfied over the
current reading and nine low history entries, and the 600s cooldown
elapsed, the claim predicts a one-node scale-down — but `evaluate` raises
`UnboundLocalError` (the at-max bug of C1), so the claim as stated (which
only assumes `min_nodes ≤ current_nodes`) fails. -/
theorem evaluate_scale_down_at_max_counterexample :
    is_sustained_below_all ⟨25, 40, 0⟩
      [⟨26, 38, 0⟩, ⟨28, 42, 0⟩, ⟨24, 39, 0⟩, ⟨27, 41, 0⟩, ⟨25, 40, 0⟩,
       ⟨26, 38, 0⟩, ⟨28, 42, 0⟩, ⟨24, 39, 0⟩, ⟨27, 41, 0⟩]
      scaleDownThresholds 10 = true ∧
    scaleUpReasons ⟨25, 40, 0⟩
      [⟨26, 38, 0⟩, ⟨28, 42, 0⟩, ⟨24, 39, 0⟩, ⟨27, 41, 0⟩, ⟨25, 40, 0⟩,
       ⟨26, 38, 0⟩, ⟨28, 42, 0⟩, ⟨24, 39, 0⟩, ⟨27, 41, 0⟩] none = [] ∧
    (600 : ℤ) ≤ 1000 - 0 ∧ (2 : ℤ) < 4 ∧
    evaluate ⟨2, 4, 4, 0⟩ 1000 ⟨25, 40, 0⟩
      [⟨26, 38, 0⟩, ⟨28, 42, 0⟩, ⟨24, 39, 0⟩, ⟨27, 41, 0⟩, ⟨25, 40, 0⟩,
       ⟨26, 38, 0⟩, ⟨28, 42, 0⟩, ⟨24, 39, 0⟩, ⟨27, 41, 0⟩] none =
      .error .unboundLocal :=
  ⟨by decide, by decide, by norm_num, by norm_num, rfl⟩

end ScalingDecision

namespace StateManager

/-! ## State manager (src/lambda/state_manager.py)

DynamoDB is modelled per cluster record: the store is `Option Item`
(`none` = no item for this `cluster_id` yet), and an item is schemaless,
so every attribute is optional.  `int(time.time())` is captured once at
the top of `acquire_lock` (line 35) and reused inside the conflict
handler (line 64), so a whole call sees a single `now`. -/

structure Item where
  node_count : Option ℤ := none
  last_scale_time : Option ℤ := none
  scaling_in_progress : Option Bool := none
  lock_acquired_at : Option ℤ := none
  lock_expiry : Option ℤ := none
  lock_released_at : Option ℤ := none
  metrics_history : Option (List Snapshot) := none
  deriving Repr, DecidableEq

/-- The default dict returned by `get_state` when no item exists
(state_manager.py lines 111-117): hardcoded `node_count: 2`,
`last_scale_time: 0`, `scaling_in_progress: False`,
`metrics_history: []`. -/
def defaultState : Item :=
  { node_count := some 2
    last_scale_time := some 0
    scaling_in_progress := some false
    metrics_history := some [] }

/-- Embeds `StateManager.get_state` (lines 96-117): return the stored item with
`metrics_history` defaulted to `[]`, or `defaultState` when the item is
absent. -/
def get_state (store : Option Item) : Item :=
  match store with
  | some item => { item with metrics_history := some (item.metrics_history.getD []) }
  | none => defaultState

/-- The `ConditionExpression` of the lock write (line 47):
`attribute_not_exists(scaling_in_progress) OR scaling_in_progress = :false
OR lock_acquired_at < :expired` with `:expired = now - 300`.  On an
absent item every `attribute_not_exists` holds; a comparison against a
missing `lock_acquired_at` is false in DynamoDB. -/
def lockCondOk (store : Option Item) (now : ℤ) : Bool :=
  match store with
  | none => true
  | some i =>
    i.scaling_in_progress.isNone ||
    (i.scaling_in_progress == some false) ||
    (match i.lock_acquired_at with
     | some t => decide (t < now - 300)
     | none => false)

/-- The `UpdateExpression` of the lock write (line 46): set
`scaling_in_progress`, `lock_acquired_at` and `lock_expiry` (creating the
item when absent). -/
def applyAcquire (store : Option Item) (now : ℤ) : Item :=
  { store.getD {} with
    scaling_in_progress := some true
    lock_acquired_at := some now
    lock_expiry := some (now + 300) }

/-- Embeds `StateManager.release_lock` (lines 79-94): unconditionally set
`scaling_in_progress = False` and stamp `lock_released_at`. -/
def release_lock (store : Option Item) (now : ℤ) : Item :=
  { store.getD {} with
    scaling_in_progress := some false
    lock_released_at := some now }

/-- Observable outcome of one `acquire_lock` call: the returned boolean,
the store afterwards, and how often the stale-lock handler forced a
release / how many conditional writes were attempted. -/
structure AcquireOutcome where
  ok : Bool
  store : Option Item
  forcedReleases : ℕ
  writeAttempts : ℕ
  deriving Repr, DecidableEq

/-- Embeds `StateManager.acquire_lock` (lines 24-77), fuelled because the source
retries via a recursive call (line 68, commented "Retry once").  On a
conditional-write conflict the handler reads the state, computes
`lock_age = now - state.get('lock_acquired_at', now)` and either forces a
release and retries (`lock_age > 300`) or returns `False`. -/
def acquireLockFuel : ℕ → Option Item → ℤ → AcquireOutcome
  | 0, st, _ => ⟨false, st, 0, 0⟩
  | fuel + 1, st, now =>
    if lockCondOk st now then ⟨true, some (applyAcquire st now), 0, 1⟩
    else
      let state := get_state st
      let lock_age := now - state.lock_acquired_at.getD now
      if lock_age > 300 then
        let r := acquireLockFuel fuel (some (release_lock st now)) now
        ⟨r.ok, r.store, r.forcedReleases + 1, r.writeAttempts + 1⟩
      else ⟨false, st, 0, 1⟩

/-- Entry point: fuel 2 covers the initial attempt plus the single
stale-lock retry the source performs (a second conflict cannot recur
sequentially: the forced release sets `scaling_in_progress = False`,
which makes the retried conditional write succeed). -/
def acquire_lock (st : Option Item) (now : ℤ) : AcquireOutcome :=
  acquireLockFuel 2 st now

theorem acquireLockFuel_step (fuel : ℕ) (st : Option Item) (now : ℤ) :
    acquireLockFuel (fuel + 1) st now =
      (if lockCondOk st now then ⟨true, some (applyAcquire st now), 0, 1⟩
       else if now - (get_state st).lock_acquired_at.getD now > 300 then
        let r := acquireLockFuel fuel (some (release_lock st now)) now
        ⟨r.ok, r.store, r.forcedReleases + 1, r.writeAttempts + 1⟩
       else ⟨false, st, 0, 1⟩) := rfl

/-- Sequential key fact: a conditional-write conflict forces
`lock_age ≤ 300` — the conflict requires `scaling_in_progress = True` and
`lock_acquired_at ≥ now - 300` (or absent, making the age 0). -/
theorem conflict_age_le (st : Option Item) (now : ℤ)
    (hcond : lockCondOk st now = false) :
    now - (get_state st).lock_acquired_at.getD now ≤ 300 := by
  match st with
  | none => simp [lockCondOk] at hcond
  | some i =>
    simp only [lockCondOk, Bool.or_eq_false_iff] at hcond
    obtain ⟨⟨-, -⟩, hacq⟩ := hcond
    cases h : i.lock_acquired_at with
    | none => simp [get_state, h]
    | some t =>
      rw [h] at hacq
      simp only [decide_eq_false_iff_not, not_lt] at hacq
      simp only [get_state, h, Option.getD_some]
      omega

/-- C4: on a conditional-write conflict, if the held lock's age exceeds
300s the call forces one release and retries exactly once, succeeding;
if the lock is held and not stale the call returns `False` without an
error and without touching the store.  Moreover a lock acquired 400
seconds ago is successfully taken over (sequentially this happens through
the conditional write itself — `lock_acquired_at < now - 300` makes the
write succeed outright — which is also why the first branch's hypothesis
cannot arise in a sequential execution: a conflict forces age ≤ 300s,
`conflict_age_le`). -/
theorem acquire_lock_conflict_behavior :
    (∀ (st : Option Item) (now : ℤ), lockCondOk st now = false →
      ((300 < now - (get_state st).lock_acquired_at.getD now →
         (acquire_lock st now).ok = true ∧
         (acquire_lock st now).forcedReleases = 1 ∧
         (acquire_lock st now).writeAttempts = 2) ∧
       (now - (get_state st).lock_acquired_at.getD now ≤ 300 →
         acquire_lock st now = ⟨false, st, 0, 1⟩))) ∧
    (∀ (now : ℤ) (i : Item), i.scaling_in_progress = some true →
      i.lock_acquired_at = some (now - 400) →
      (acquire_lock (some i) now).ok = true ∧
      (acquire_lock (some i) now).store = some (applyAcquire (some i) now)) := by
  constructor
  · intro st now hcond
    have hage := conflict_age_le st now hcond
    constructor
    · intro hstale
      omega
    · intro _
      rw [acquire_lock, show (2 : ℕ) = 1 + 1 from rfl, acquireLockFuel_step,
        if_neg (by simp [hcond]), if_neg (by omega)]
  · intro now i hsip hacq
    have hcond : lockCondOk (some i) now = true := by
      have h : now - 400 < now - 300 := by omega
      simp [lockCondOk, hsip, hacq, h]
    rw [acquire_lock, show (2 : ℕ) = 1 + 1 from rfl, acquireLockFuel_step,
      if_pos hcond]
    exact ⟨rfl, rfl⟩

/-- A record whose lock was taken at t=900: at `now = 1000` it is held
and 100s old (not stale). -/
def heldItem : Item := { scaling_in_progress := some true, lock_acquired_at := some 900 }

/-- A record whose lock was taken at t=600: at `now = 1000` it is held
and 400s old (stale). -/
def staleItem : Item := { scaling_in_progress := some true, lock_acquired_at := some 600 }

/-- Witness for `acquire_lock_conflict_behavior`: a lock held for 100s
conflicts and is refused without error; a lock held since 400s ago is
taken over. -/
theorem acquire_lock_conflict_behavior_witness :
    lockCondOk (some heldItem) 1000 = false ∧
    acquire_lock (some heldItem) 1000 = ⟨false, some heldItem, 0, 1⟩ ∧
    (acquire_lock (some staleItem) 1000).ok = true := by
  refine ⟨by decide, ?_, ?_⟩
  · exact (acquire_lock_conflict_behavior.1 (some heldItem) 1000
      (by decide)).2 (by decide)
  · exact (acquire_lock_conflict_behavior.2 1000 staleItem rfl (by decide)).1

/-- C9 counterexample: `MIN_NODES` is configurable
(`int(os.environ.get("MIN_NODES", "2"))`, src/lambda/autoscaler.py line
37) — with `MIN_NODES=3` the configured minimum is 3, yet `get_state` on
an absent record returns the hardcoded `node_count = 2`
(src/lambda/state_manager.py line 113), not the configured minimum. -/
theorem get_state_default_not_configured_min :
    (get_state none).node_count = some 2 ∧
    (get_state none).node_count ≠ some 3 :=
  ⟨rfl, by decide⟩

/-- C9 (amended: the default `node_count` is the literal 2 — the default
configured minimum — not the configured minimum itself): on an absent
record `get_state` returns the default state with `node_count = 2`, no
lock held (`scaling_in_progress = False`), `last_scale_time = 0` and an
empty metrics history. -/
theorem get_state_absent_default :
    get_state none = defaultState ∧
    defaultState.node_count = some 2 ∧
    defaultState.scaling_in_progress = some false ∧
    defaultState.last_scale_time = some 0 ∧
    defaultState.metrics_history = some [] :=
  ⟨rfl, rfl, rfl, rfl, rfl⟩

end StateManager

/-! ## Stable sort by an integer key

Python's `sorted(xs, key=f)` is the unique stable ascending sort; the
standard insertion sort below (inserting after equal keys, folding from
the right) computes exactly that function. -/

def insertByKey (key : α → ℤ) (x : α) : List α → List α
  | [] => [x]
  | y :: ys => if key x ≤ key y then x :: y :: ys else y :: insertByKey key x ys

def sortByKey (key : α → ℤ) : List α → List α
  | [] => []
  | x :: xs => insertByKey key x (sortByKey key xs)

theorem perm_insertByKey (key : α → ℤ) (x : α) (l : List α) :
    List.Perm (insertByKey key x l) (x :: l) := by
  induction l with
  | nil => rfl
  | cons y ys ih =>
    rw [insertByKey]
    split_ifs
    · rfl
    · exact (List.Perm.cons y ih).trans (List.Perm.swap x y ys)

theorem perm_sortByKey (key : α → ℤ) (l : List α) :
    List.Perm (sortByKey key l) l := by
  induction l with
  | nil => rfl
  | cons x xs ih =>
    rw [sortByKey]
    exact (perm_insertByKey key x (sortByKey key xs)).trans (ih.cons x)

theorem length_sortByKey (key : α → ℤ) (l : List α) :
    (sortByKey key l).length = l.length :=
  (perm_sortByKey key l).length_eq

theorem mem_insertByKey (key : α → ℤ) (x a : α) (l : List α) :
    a ∈ insertByKey key x l ↔ a = x ∨ a ∈ l := by
  rw [(perm_insertByKey key x l).mem_iff, List.mem_cons]

theorem pairwise_insertByKey (key : α → ℤ) (x : α) (l : List α)
    (h : l.Pairwise (fun a b => key a ≤ key b)) :
    (insertByKey key x l).Pairwise (fun a b => key a ≤ key b) := by
  induction l with
  | nil => simp [insertByKey]
  | cons y ys ih =>
    rw [insertByKey]
    rcases List.pairwise_cons.mp h with ⟨hy, hys⟩
    split_ifs with hxy
    · refine List.pairwise_cons.mpr ⟨?_, h⟩
      intro b hb
      rcases List.mem_cons.mp hb with rfl | hb
      · exact hxy
      · exact hxy.trans (hy b hb)
    · refine List.pairwise_cons.mpr ⟨?_, ih hys⟩
      intro b hb
      rcases (mem_insertByKey key x b ys).mp hb with rfl | hb
      · exact (not_le.mp hxy).le
      · exact hy b hb

theorem pairwise_sortByKey (key : α → ℤ) (l : List α) :
    (sortByKey key l).Pairwise (fun a b => key a ≤ key b) := by
  induction l with
  | nil => exact List.Pairwise.nil
  | cons x xs ih => exact pairwise_insertByKey key x (sortByKey key xs) ih

namespace EC2

/-! ## Node lifecycle manager (src/lambda/ec2_manager.py)

The Kubernetes side is modelled as an explicit world: node objects with
their schedulability flag, pods (name, namespace, node, phase, readiness
folded from the `Ready` condition, owner references in order, the
`kubernetes.io/config.mirror` annotation, labels) and stateful sets.  The
environment records which kubeconfig sources load: `loadKubeConfigOk`
models `_load_kube_config` (KUBECONFIG env var, in-cluster config, or
Secrets Manager, lines 752-795), while `inClusterConfigOk` models the
bare `config.load_incluster_config()` that `_uncordon_node` alone uses
(line 735).  In the Lambda deployment in-cluster config never loads. -/

structure Owner where
  kind : String
  name : String
  deriving Repr, DecidableEq

structure Pod where
  name : String
  ns : String
  nodeName : Option String
  phase : String
  ready : Bool
  owners : List Owner
  mirror : Bool
  labels : List (String × String)
  deriving Repr, DecidableEq

structure Sts where
  name : String
  ns : String
  replicas : ℤ
  matchLabels : List (String × String)
  deriving Repr, DecidableEq

structure KNode where
  name : String
  unschedulable : Bool
  deriving Repr, DecidableEq

structure KWorld where
  nodes : List KNode
  pods : List Pod
  stss : List Sts
  deriving Repr, DecidableEq

structure KEnv where
  loadKubeConfigOk : Bool
  inClusterConfigOk : Bool
  deriving Repr, DecidableEq

/-- Embeds `",".join(f"{k}={v}" ...)` label-selector matching: a pod matches
when every selector pair occurs among its labels. -/
def matchesLabels (sel lbls : List (String × String)) : Bool :=
  sel.all (fun kv => lbls.contains kv)

/-- Embeds `EC2Manager._verify_statefulset_replicas` (ec2_manager.py lines
644-722): resolve the owning stateful set of `pod`, list its pods by
label selector, and count replicas that are not the pod itself, sit on a
node other than `current_node` (a pending pod with no node also counts,
as `None != current_node` in Python), are `Running` and report the
`Ready` condition.  Any failure — no kubeconfig, no owner name, or a 404
reading the stateful set (the broad `except` at line 719) — returns
`True` (fail open). -/
def verify_statefulset_replicas (env : KEnv) (w : KWorld) (pod : Pod)
    (current_node : String) : Bool :=
  if !env.loadKubeConfigOk then true
  else
    match pod.owners.find? (fun o => o.kind == "StatefulSet") with
    | none => true
    | some o =>
      match w.stss.find? (fun s => s.name == o.name && s.ns == pod.ns) with
      | none => true
      | some sts =>
        let sts_pods := w.pods.filter
          (fun p => p.ns == pod.ns && matchesLabels sts.matchLabels p.labels)
        let other_node_replicas := (sts_pods.filter (fun p =>
          p.name != pod.name && p.nodeName != some current_node &&
          p.phase == "Running" && p.ready)).length
        decide (0 < other_node_replicas)

/-- Embeds `v1.patch_node(node_name, {"spec": {"unschedulable": b}})`. -/
def setUnschedulable (w : KWorld) (n : String) (b : Bool) : KWorld :=
  { w with nodes := w.nodes.map (fun nd => if nd.name == n then { nd with unschedulable := b } else nd) }

/-- Embeds `EC2Manager._uncordon_node` (lines 724-750): it loads configuration
via `config.load_incluster_config()` only — not `_load_kube_config` —
so outside a cluster the exception handler swallows the failure and the
patch never happens. -/
def uncordon_node (env : KEnv) (w : KWorld) (n : String) : KWorld :=
  if env.inClusterConfigOk then setUnschedulable w n false else w

/-- The owner-reference loop of `_drain_node` step 3 (lines 523-539): a
pod lands in `statefulset_pods` when a `StatefulSet` owner occurs before
any `DaemonSet` owner (the loop breaks at the first `DaemonSet`). -/
def stsOwnerBeforeDaemon (p : Pod) : Bool :=
  (p.owners.takeWhile (fun o => o.kind != "DaemonSet")).any
    (fun o => o.kind == "StatefulSet")

/-- Embeds `v1.list_pod_for_all_namespaces(field_selector="spec.nodeName=n")`. -/
def podsOnNode (w : KWorld) (n : String) : List Pod :=
  w.pods.filter (fun p => p.nodeName == some n)

/-- Embeds `EC2Manager._drain_node` (lines 479-642).  The eviction calls and the
emptiness poll loop (steps 4-5) act on external asynchronous state, so
their sole observable — whether the node is empty of non-infrastructure
pods before the timeout — is the oracle `emptiesInTime`.  Control flow
from the source: missing kubeconfig returns `True` (fail open, line 494);
a 404 on cordon returns `True` (line 510); an unsafe stateful-set pod
aborts with uncordon and `False` (lines 556-566); a poll timeout
uncordons and returns `False` (lines 626-628). -/
def drain_node (env : KEnv) (w : KWorld) (node_name : String)
    (emptiesInTime : Bool) : Bool × KWorld :=
  if !env.loadKubeConfigOk then (true, w)
  else if !(w.nodes.any (fun nd => nd.name == node_name)) then (true, w)
  else
    let w1 := setUnschedulable w node_name true
    let statefulset_pods := (podsOnNode w node_name).filter stsOwnerBeforeDaemon
    if statefulset_pods.any
        (fun p => !(verify_statefulset_replicas env w p node_name)) then
      (false, uncordon_node env w1 node_name)
    else if emptiesInTime then (true, w1)
    else (false, uncordon_node env w1 node_name)

/-- C2 (code bug): drain safety gate on a node hosting the only replica
of a stateful set.  World: nodes `n1`, `n2`; pod `db-0` (owned by
stateful set `db`, labels `app=db`, running and ready on `n1`); stateful
set `db` with one replica and selector `app=db`; no replica elsewhere.

* In the Lambda environment (`_load_kube_config` succeeds through
  KUBECONFIG or Secrets Manager, in-cluster config does not load) the
  drain is refused — but the node is left cordoned, because
  `_uncordon_node` only attempts `config.load_incluster_config()`
  (ec2_manager.py line 735): the claim's "restored to schedulable" fails.
* With in-cluster config available the same refusal does restore
  schedulability.
* With a ready `db-1` replica on `n2` the gate passes and the drain
  proceeds (returns `True`, node left cordoned for termination). -/
theorem drain_gate_uncordon_requires_incluster :
    drain_node ⟨true, false⟩
      ⟨[⟨"n1", false⟩, ⟨"n2", false⟩],
       [⟨"db-0", "default", some "n1", "Running", true,
         [⟨"StatefulSet", "db"⟩], false, [("app", "db")]⟩],
       [⟨"db", "default", 1, [("app", "db")]⟩]⟩ "n1" true =
      (false,
        ⟨[⟨"n1", true⟩, ⟨"n2", false⟩],
         [⟨"db-0", "default", some "n1", "Running", true,
           [⟨"StatefulSet", "db"⟩], false, [("app", "db")]⟩],
         [⟨"db", "default", 1, [("app", "db")]⟩]⟩) ∧
    drain_node ⟨true, true⟩
      ⟨[⟨"n1", false⟩, ⟨"n2", false⟩],
       [⟨"db-0", "default", some "n1", "Running", true,
         [⟨"StatefulSet", "db"⟩], false, [("app", "db")]⟩],
       [⟨"db", "default", 1, [("app", "db")]⟩]⟩ "n1" true =
      (false,
        ⟨[⟨"n1", false⟩, ⟨"n2", false⟩],
         [⟨"db-0", "default", some "n1", "Running", true,
           [⟨"StatefulSet", "db"⟩], false, [("app", "db")]⟩],
         [⟨"db", "default", 1, [("app", "db")]⟩]⟩) ∧
    drain_node ⟨true, false⟩
      ⟨[⟨"n1", false⟩, ⟨"n2", false⟩],
       [⟨"db-0", "default", some "n1", "Running", true,
         [⟨"StatefulSet", "db"⟩], false, [("app", "db")]⟩,
        ⟨"db-1", "default", some "n2", "Running", true,
         [⟨"StatefulSet", "db"⟩], false, [("app", "db")]⟩],
       [⟨"db", "default", 2, [("app", "db")]⟩]⟩ "n1" true =
      (true,
        ⟨[⟨"n1", true⟩, ⟨"n2", false⟩],
         [⟨"db-0", "default", some "n1", "Running", true,
           [⟨"StatefulSet", "db"⟩], false, [("app", "db")]⟩,
          ⟨"db-1", "default", some "n2", "Running", true,
           [⟨"StatefulSet", "db"⟩], false, [("app", "db")]⟩],
         [⟨"db", "default", 2, [("app", "db")]⟩]⟩) := by
  refine ⟨by decide, by decide, by decide⟩

/-! ### Victim selection (scale-down) -/

/-- A running worker instance as returned by `describe_instances`: id,
the `InstanceLifecycle` field (`'spot'` on spot instances, absent
otherwise) and the private DNS name. -/
structure Instance where
  instanceId : String
  instanceLifecycle : Option String
  privateDnsName : String
  deriving Repr, DecidableEq

/-- Embeds `EC2Manager._get_node_name_from_instance` (lines 387-397): on a
successful describe, the first dot-component of the private DNS name
(the instance id when the DNS name is empty); `none` models the bare
`except` returning `None` when the describe fails, captured by the
`describeOk` oracle. -/
def node_name_from_instance (describeOk : String → Bool) (i : Instance) :
    Option String :=
  if !(describeOk i.instanceId) then none
  else if i.privateDnsName != "" then
    some ((i.privateDnsName.splitOn ".").headD i.privateDnsName)
  else some i.instanceId

/-- Pod filter of `EC2Manager._get_node_pod_info` (lines 358-371): skip
`kube-system`, skip `Succeeded`/`Failed`, skip pods without a node. -/
def countedPod (p : Pod) (node : String) : Bool :=
  p.ns != "kube-system" && p.phase != "Succeeded" && p.phase != "Failed" &&
    p.nodeName == some node

/-- Embeds `node_info[node]['count']` of `_get_node_pod_info`. -/
def node_pod_count (pods : List Pod) (node : String) : ℕ :=
  (pods.filter (fun p => countedPod p node)).length

/-- Embeds `node_info[node]['has_sts']` of `_get_node_pod_info` (lines 374-378):
some counted pod on the node has a `StatefulSet` owner reference. -/
def node_has_sts (pods : List Pod) (node : String) : Bool :=
  pods.any (fun p => countedPod p node &&
    p.owners.any (fun o => o.kind == "StatefulSet"))

/-- Embeds `get_sort_key` inside `_select_instances_for_termination` (lines
320-332): `sts_weight (1000) + lifecycle_weight (100 unless spot) +
pod count`, with the defaults `{'count': 0, 'has_sts': False}` when the
node name is unknown.  `kubeOk = false` models `_get_node_pod_info`
returning `{}` (kubeconfig failure or API error, lines 352-354 and
382-384), in which case every lookup takes the default. -/
def get_sort_key (kubeOk : Bool) (pods : List Pod)
    (describeOk : String → Bool) (i : Instance) : ℤ :=
  let visiblePods := if kubeOk then pods else []
  let info : ℕ × Bool :=
    match node_name_from_instance describeOk i with
    | none => (0, false)
    | some n => (node_pod_count visiblePods n, node_has_sts visiblePods n)
  let lifecycle_weight : ℤ := if i.instanceLifecycle == some "spot" then 0 else 100
  let sts_weight : ℤ := if info.2 then 1000 else 0
  sts_weight + lifecycle_weight + (info.1 : ℤ)

/-- Embeds `EC2Manager._select_instances_for_termination` (lines 305-342):
stable ascending sort by `get_sort_key`, then the Python slice
`instances_sorted[:count]`. -/
def select_instances_for_termination (kubeOk : Bool) (pods : List Pod)
    (describeOk : String → Bool) (instances : List Instance) (count : ℤ) :
    List Instance :=
  pySliceTo (sortByKey (get_sort_key kubeOk pods describeOk) instances) count

theorem pySliceTo_nonneg (l : List α) (k : ℤ) (h : 0 ≤ k) :
    pySliceTo l k = l.take k.toNat := by
  rw [pySliceTo, if_neg (not_lt.mpr h)]

theorem length_select (kubeOk : Bool) (pods : List Pod)
    (describeOk : String → Bool) (instances : List Instance) (count : ℤ)
    (hc : 0 ≤ count) :
    (select_instances_for_termination kubeOk pods describeOk instances
      count).length = min count.toNat instances.length := by
  rw [select_instances_for_termination, pySliceTo_nonneg _ _ hc,
    List.length_take, length_sortByKey]

/-- C3 (amended): victim selection sorts the instances by the score
`1000·has_stateful_workload + 100·(not spot) + pod_count` — system
criticality, sole replicas and launch times play no role — and takes the
first `count` of the stable ascending order; consequently it returns
`min count n` instances, each selected instance scores no higher than
each unselected one, and selected plus unselected are a permutation of
the input. -/
theorem select_takes_lowest_scores (kubeOk : Bool) (pods : List Pod)
    (describeOk : String → Bool) (instances : List Instance) (count : ℤ)
    (hc : 0 ≤ count) :
    (select_instances_for_termination kubeOk pods describeOk instances
        count).length = min count.toNat instances.length ∧
    List.Perm
      (select_instances_for_termination kubeOk pods describeOk instances
          count ++
        (sortByKey (get_sort_key kubeOk pods describeOk) instances).drop
          count.toNat)
      instances ∧
    (∀ a ∈ select_instances_for_termination kubeOk pods describeOk
        instances count,
      ∀ b ∈ (sortByKey (get_sort_key kubeOk pods describeOk)
          instances).drop count.toNat,
        get_sort_key kubeOk pods describeOk a ≤
          get_sort_key kubeOk pods describeOk b) := by
  refine ⟨length_select kubeOk pods describeOk instances count hc, ?_, ?_⟩
  · rw [select_instances_for_termination, pySliceTo_nonneg _ _ hc,
      List.take_append_drop]
    exact perm_sortByKey _ _
  · rw [select_instances_for_termination, pySliceTo_nonneg _ _ hc]
    have hp := pairwise_sortByKey (get_sort_key kubeOk pods describeOk)
      instances
    rw [← List.take_append_drop count.toNat
      (sortByKey (get_sort_key kubeOk pods describeOk) instances),
      List.pairwise_append] at hp
    exact fun a ha b hb => hp.2.2 a ha b hb

/-- Witness for `select_takes_lowest_scores`: two instances, one victim
requested. -/
theorem select_takes_lowest_scores_witness :
    (select_instances_for_termination true [] (fun _ => true)
      [⟨"i-a", some "spot", "a"⟩, ⟨"i-b", none, "b"⟩] 1).length =
      min (1 : ℤ).toNat 2 :=
  (select_takes_lowest_scores true [] (fun _ => true)
    [⟨"i-a", some "spot", "a"⟩, ⟨"i-b", none, "b"⟩] 1 (by norm_num)).1

/-- The §4.4 scoring formula, modelled from the spec's words for
comparison with the code's `get_sort_key`:
`10000·has_system_critical_workload + 5000·hosts_sole_replica +
1000·has_stateful_workload + 100·(not spot) + workload_count −
launch_time_fraction`. -/
def spec_termination_score (critical soleReplica stateful spot : Bool)
    (workload_count : ℤ) (launch_time_fraction : ℚ) : ℚ :=
  (if critical then 10000 else 0) + (if soleReplica then 5000 else 0) +
    (if stateful then 1000 else 0) + (if spot then 0 else 100) +
    (workload_count : ℚ) - launch_time_fraction

/-- C3 counterexample: instance `i-a` is spot and its node `a` hosts a
system-critical workload (a `kube-system` pod that is neither a
daemon-set pod nor a static pod), instance `i-b` is on-demand with an
empty node.  Under the claim's scoring `i-a` scores `10000 - f_a` and
`i-b` scores `100 - f_b` (both fractions in `[0,1)`, shown here at 1/2),
so the claim selects `i-b`; the code ignores criticality entirely
(`_get_node_pod_info` skips `kube-system` pods, line 362), scores `i-a`
at 0 and `i-b` at 100, and selects `i-a`. -/
theorem select_ignores_system_critical_counterexample :
    select_instances_for_termination true
      [⟨"crit", "kube-system", some "a", "Running", true, [], false, []⟩]
      (fun _ => true)
      [⟨"i-a", some "spot", "a"⟩, ⟨"i-b", none, "b"⟩] 1 =
      [⟨"i-a", some "spot", "a"⟩] ∧
    spec_termination_score true false false true 0 (1 / 2) >
      spec_termination_score false false false false 0 (1 / 2) ∧
    (⟨"i-a", some "spot", "a"⟩ : Instance) ≠ ⟨"i-b", none, "b"⟩ := by
  refine ⟨by decide, by norm_num [spec_termination_score], by decide⟩

/-! ### Scale-up and the spot/on-demand mix -/

structure Mix where
  spot : ℤ
  ondemand : ℤ
  deriving Repr, DecidableEq

/-- Embeds `calculate_spot_ondemand_mix` (src/lambda/spot_instance_helper.py
lines 15-64).  The source computes
`ideal_total_spot = int(desired_nodes_int * 0.70)` with IEEE-754 double
multiplication; that single value is taken here as the explicit parameter
`idealTotalSpot` (every property below holds for all of its values, so
nothing depends on the float rounding). -/
def calculate_spot_ondemand_mix (idealTotalSpot : ℤ)
    (current_nodes desired_nodes existing_spot_count
      existing_ondemand_count : ℤ) : Mix :=
  let nodes_to_add := desired_nodes - current_nodes
  if nodes_to_add ≤ 0 then ⟨0, 0⟩
  else
    let ideal_total_ondemand := desired_nodes - idealTotalSpot
    let spot_to_add := max 0 (idealTotalSpot - existing_spot_count)
    let ondemand_to_add := max 0 (ideal_total_ondemand - existing_ondemand_count)
    let total_to_add := spot_to_add + ondemand_to_add
    if total_to_add > nodes_to_add then
      if spot_to_add > nodes_to_add then ⟨nodes_to_add, 0⟩
      else ⟨spot_to_add, nodes_to_add - spot_to_add⟩
    else if total_to_add < nodes_to_add then
      ⟨spot_to_add + (nodes_to_add - total_to_add), ondemand_to_add⟩
    else ⟨spot_to_add, ondemand_to_add⟩

theorem mix_nonneg (i c d s o : ℤ) :
    0 ≤ (calculate_spot_ondemand_mix i c d s o).spot ∧
    0 ≤ (calculate_spot_ondemand_mix i c d s o).ondemand := by
  have h1 : (0 : ℤ) ≤ max 0 (i - s) := le_max_left 0 (i - s)
  have h2 : (0 : ℤ) ≤ max 0 (d - i - o) := le_max_left 0 (d - i - o)
  simp only [calculate_spot_ondemand_mix]
  split_ifs <;> constructor <;> simp <;> omega

/-- Count of workers with `InstanceLifecycle == 'spot'`
(ec2_manager.py line 98). -/
def fleetSpotCount (fleet : List Instance) : ℤ :=
  ((fleet.filter (fun i => i.instanceLifecycle == some "spot")).length : ℤ)

/-- The mix `scale_up` computes (lines 103-108): current totals from the
live fleet, desired = current + nodes_to_add. -/
def scaleUpMix (fleet : List Instance) (nodes_to_add idealTotalSpot : ℤ) :
    Mix :=
  calculate_spot_ondemand_mix idealTotalSpot (fleet.length : ℤ)
    ((fleet.length : ℤ) + nodes_to_add) (fleetSpotCount fleet)
    ((fleet.length : ℤ) - fleetSpotCount fleet)

/-- The result dict of `scale_up` (lines 151-158). -/
structure ScaleUpResult where
  success : Bool
  instance_ids : List String
  spot_count : ℤ
  ondemand_count : ℤ
  ready_nodes : List String
  node_join_latency_ms : ℤ
  deriving Repr, DecidableEq

/-- Fresh instance ids returned by `_launch_instances` for a batch of
`count` launches (the ids themselves are opaque AWS identifiers; only
their number matters to the callers). -/
def launch_ids (tag : String) (count : ℕ) : List String :=
  (List.range count).map (fun j => tag ++ toString j)

/-- Embeds `EC2Manager.scale_up` (lines 76-162).  Oracles: `spotLaunchOk` /
`ondemandLaunchOk` are whether the respective `_launch_instances` batch
succeeds, `ready_nodes` and `latency` are the outcome of
`_wait_for_nodes_ready` (a timeout only shrinks `ready_nodes`, it is not
an error).  The interruption-notice sweep at lines 90-94 only tags
instances and does not affect the result.  On a spot launch failure the
`except` at lines 126-129 adds the whole spot request to the on-demand
request and zeroes `spot_count`; an on-demand launch failure propagates
(the outer `except` re-raises, line 160). -/
def scale_up (fleet : List Instance) (nodes_to_add idealTotalSpot : ℤ)
    (spotLaunchOk ondemandLaunchOk : Bool) (ready_nodes : List String)
    (latency : ℤ) : Except String ScaleUpResult :=
  let mix := scaleUpMix fleet nodes_to_add idealTotalSpot
  let afterSpot : List String × ℤ × ℤ :=
    if 0 < mix.spot then
      if spotLaunchOk then (launch_ids "spot-" mix.spot.toNat, mix.spot, mix.ondemand)
      else ([], 0, mix.ondemand + mix.spot)
    else ([], mix.spot, mix.ondemand)
  if 0 < afterSpot.2.2 && !ondemandLaunchOk then
    .error "on-demand launch failed"
  else
    .ok ⟨true,
      afterSpot.1 ++
        (if 0 < afterSpot.2.2 then launch_ids "od-" afterSpot.2.2.toNat else []),
      afterSpot.2.1, afterSpot.2.2, ready_nodes, latency⟩

theorem length_launch_ids (tag : String) (count : ℕ) :
    (launch_ids tag count).length = count := by
  rw [launch_ids, List.length_map, List.length_range]

/-- C8: whenever the computed mix requests `spot > 0` spot instances and
the spot launch fails (on-demand launches succeeding), `scale_up` does
not fail: the whole spot shortfall is added to the on-demand request, the
result reports `spot_count = 0` and `ondemand_count = ondemand + spot`,
and the number of launched instances equals the originally requested
total `spot + ondemand`. -/
theorem scale_up_spot_fallback (fleet : List Instance)
    (nodes_to_add idealTotalSpot : ℤ) (ready_nodes : List String)
    (latency : ℤ)
    (hspot : 0 < (scaleUpMix fleet nodes_to_add idealTotalSpot).spot) :
    scale_up fleet nodes_to_add idealTotalSpot false true ready_nodes
        latency =
      .ok ⟨true,
        launch_ids "od-"
          ((scaleUpMix fleet nodes_to_add idealTotalSpot).ondemand +
            (scaleUpMix fleet nodes_to_add idealTotalSpot).spot).toNat,
        0,
        (scaleUpMix fleet nodes_to_add idealTotalSpot).ondemand +
          (scaleUpMix fleet nodes_to_add idealTotalSpot).spot,
        ready_nodes, latency⟩ ∧
    (launch_ids "od-"
        ((scaleUpMix fleet nodes_to_add idealTotalSpot).ondemand +
          (scaleUpMix fleet nodes_to_add idealTotalSpot).spot).toNat).length =
      ((scaleUpMix fleet nodes_to_add idealTotalSpot).spot +
        (scaleUpMix fleet nodes_to_add idealTotalSpot).ondemand).toNat := by
  have hod : 0 ≤ (scaleUpMix fleet nodes_to_add idealTotalSpot).ondemand :=
    (mix_nonneg idealTotalSpot (fleet.length : ℤ)
      ((fleet.length : ℤ) + nodes_to_add) (fleetSpotCount fleet)
      ((fleet.length : ℤ) - fleetSpotCount fleet)).2
  have hsum : 0 < (scaleUpMix fleet nodes_to_add idealTotalSpot).ondemand +
      (scaleUpMix fleet nodes_to_add idealTotalSpot).spot := by omega
  constructor
  · rw [scale_up]
    simp only [if_pos hspot, Bool.false_eq_true, if_false, if_pos hsum,
      Bool.not_true, Bool.and_false, Bool.false_eq_true, if_false,
      List.nil_append]
  · rw [length_launch_ids]
    omega

/-- Witness for `scale_up_spot_fallback`: empty fleet, three nodes
requested, ideal spot total 2 (the mix is 2 spot + 1 on-demand); the
failed spot batch degrades to three on-demand launches. -/
theorem scale_up_spot_fallback_witness :
    scale_up [] 3 2 false true [] 0 =
      .ok ⟨true, ["od-0", "od-1", "od-2"], 0, 3, [], 0⟩ := by
  have h := (scale_up_spot_fallback [] 3 2 [] 0 (by decide)).1
  exact h.trans (by rfl)

/-! ### Scale-down -/

/-- The result dict of `scale_down` (lines 186 and 218-221). -/
structure ScaleDownResult where
  success : Bool
  instance_ids : List String
  message : Option String
  deriving Repr, DecidableEq

/-- Embeds `EC2Manager.scale_down` (lines 164-225).  `fleet` models
`_get_worker_instances()`; `drainOk nm` is the outcome of
`_drain_node(nm)` for the node (a failed drain skips the termination of
that instance, lines 203-205); instances whose node name cannot be
resolved are terminated without draining (the `if node_name:` guard at
line 200).  When the fleet is not larger than the request, the removal
count is clamped to `max(0, len(fleet) - 1)` (line 183), and a zero count
returns immediately with no terminations (lines 185-186). -/
def scale_down (kubeOk : Bool) (pods : List Pod)
    (describeOk : String → Bool) (drainOk : String → Bool)
    (fleet : List Instance) (nodes_to_remove : ℤ) : ScaleDownResult :=
  let n := if (fleet.length : ℤ) ≤ nodes_to_remove then
    max 0 ((fleet.length : ℤ) - 1) else nodes_to_remove
  if n = 0 then ⟨true, [], some "No nodes removed"⟩
  else
    let selected := select_instances_for_termination kubeOk pods describeOk
      fleet n
    let terminated := (selected.filter (fun i =>
      match node_name_from_instance describeOk i with
      | some nm => drainOk nm
      | none => true)).map (fun i => i.instanceId)
    ⟨true, terminated, none⟩

/-- C10: `scale_down` never terminates the whole worker fleet.  For every
requested count `N ≥ 1`: with at least one worker, strictly fewer
instances than workers are terminated; when the fleet is not larger than
`N` the call behaves exactly as a request for `fleet - 1` removals; with
at most one worker nothing is terminated and the call succeeds with an
empty list; and the call always reports success. -/
theorem scale_down_never_terminates_all (kubeOk : Bool) (pods : List Pod)
    (describeOk : String → Bool) (drainOk : String → Bool)
    (fleet : List Instance) (nodes_to_remove : ℤ)
    (hN : 1 ≤ nodes_to_remove) :
    (1 ≤ fleet.length →
      (scale_down kubeOk pods describeOk drainOk fleet
        nodes_to_remove).instance_ids.length < fleet.length) ∧
    (1 ≤ fleet.length → (fleet.length : ℤ) ≤ nodes_to_remove →
      scale_down kubeOk pods describeOk drainOk fleet nodes_to_remove =
        scale_down kubeOk pods describeOk drainOk fleet
          ((fleet.length : ℤ) - 1)) ∧
    (fleet.length ≤ 1 →
      scale_down kubeOk pods describeOk drainOk fleet nodes_to_remove =
        ⟨true, [], some "No nodes removed"⟩) ∧
    (scale_down kubeOk pods describeOk drainOk fleet
      nodes_to_remove).success = true := by
  refine ⟨?_, ?_, ?_, ?_⟩
  · intro hfl
    rw [scale_down]
    by_cases hle : (fleet.length : ℤ) ≤ nodes_to_remove
    · rw [if_pos hle]
      by_cases h0 : max 0 ((fleet.length : ℤ) - 1) = 0
      · rw [if_pos h0]
        simpa using hfl
      · rw [if_neg h0]
        simp only []
        have hsel := length_select kubeOk pods describeOk fleet
          (max 0 ((fleet.length : ℤ) - 1)) (le_max_left _ _)
        have hfil : ((select_instances_for_termination kubeOk pods
            describeOk fleet (max 0 ((fleet.length : ℤ) - 1))).filter
            (fun i => match node_name_from_instance describeOk i with
              | some nm => drainOk nm
              | none => true)).length ≤
            (select_instances_for_termination kubeOk pods describeOk fleet
              (max 0 ((fleet.length : ℤ) - 1))).length :=
          List.length_filter_le _ _
        rw [List.length_map]
        omega
    · rw [if_neg hle, if_neg (by omega)]
      simp only []
      have hsel := length_select kubeOk pods describeOk fleet
        nodes_to_remove (by omega)
      have hfil : ((select_instances_for_termination kubeOk pods
          describeOk fleet nodes_to_remove).filter
          (fun i => match node_name_from_instance describeOk i with
            | some nm => drainOk nm
            | none => true)).length ≤
          (select_instances_for_termination kubeOk pods describeOk fleet
            nodes_to_remove).length :=
        List.length_filter_le _ _
      rw [List.length_map]
      omega
  · intro hfl hle
    rw [scale_down, scale_down, if_pos hle,
      if_neg (show ¬ ((fleet.length : ℤ) ≤ (fleet.length : ℤ) - 1) by omega),
      show max 0 ((fleet.length : ℤ) - 1) = (fleet.length : ℤ) - 1 by omega]
  · intro hfl
    rw [scale_down]
    rcases Nat.le_one_iff_eq_zero_or_eq_one.mp hfl with h0 | h1
    · rw [h0]
      rw [if_pos (by omega : ((0 : ℕ) : ℤ) ≤ nodes_to_remove),
        if_pos (by omega : max 0 (((0 : ℕ) : ℤ) - 1) = 0)]
    · rw [h1]
      rw [if_pos (by omega : ((1 : ℕ) : ℤ) ≤ nodes_to_remove),
        if_pos (by omega : max 0 (((1 : ℕ) : ℤ) - 1) = 0)]
  · rw [scale_down]
    split_ifs <;> rfl

/-- Witness for `scale_down_never_terminates_all`: three workers, a
request to remove five terminates at most two and behaves as a request
for two; a single worker yields no termination. -/
theorem scale_down_never_terminates_all_witness :
    (scale_down true [] (fun _ => true) (fun _ => true)
      [⟨"i-a", some "spot", "a"⟩, ⟨"i-b", none, "b"⟩, ⟨"i-c", none, "c"⟩]
      5).instance_ids.length < 3 ∧
    scale_down true [] (fun _ => true) (fun _ => true)
      [⟨"i-a", some "spot", "a"⟩] 5 = ⟨true, [], some "No nodes removed"⟩ := by
  constructor
  · exact (scale_down_never_terminates_all true [] (fun _ => true)
      (fun _ => true)
      [⟨"i-a", some "spot", "a"⟩, ⟨"i-b", none, "b"⟩, ⟨"i-c", none, "c"⟩]
      5 (by norm_num)).1 (by norm_num)
  · exact (scale_down_never_terminates_all true [] (fun _ => true)
      (fun _ => true) [⟨"i-a", some "spot", "a"⟩] 5
      (by norm_num)).2.2.1 (by norm_num)

end EC2

end NodeFleet

